import Mathlib

/-!
Verification of the tool-call dispatch and request/response translation layer of the
v0-mcp server (Cloudflare Worker exposing the v0 Platform API as MCP tools).

The repository ships two variants of the worker:
* the legacy variant in `src/index.ts` (custom fetch-based v0 client, 10 tools, the
  API key taken from the worker environment `env.V0_API_KEY`, no edge credential check);
* the main v0-sdk variant (39 tools, the API key taken from the `key` query parameter,
  rejected with a 401 response when absent), whose full source is embedded in the
  repository's README.

Both are embedded below.  Machine integers do not occur; JS strings are `String`,
JS arrays are `List`, and optional / possibly-`undefined` values are `Option`.
`JSON.stringify` drops object fields whose value is `undefined`, so a field that is
sometimes omitted from an outbound body is an `Option` field, with `none` meaning
"not present in the serialized request".
-/

namespace V0MCP

/-- One content block of an MCP result envelope (`{ type: "text", text: ... }`). -/
structure ContentBlock where
  type : String
  text : String
deriving DecidableEq, Repr

/-- An MCP result envelope: the `{ content: [...] }` value returned by a tool handler. -/
structure Envelope where
  content : List ContentBlock
deriving DecidableEq, Repr

/-- The envelope shape every handler in `src/index.ts` returns:
a single text content block. -/
def textEnvelope (s : String) : Envelope :=
  ⟨[⟨"text", s⟩]⟩

/-- The nested model configuration object built by the `create_chat` handler
(`src/index.ts` 190-195): exactly a `modelId` and an `imageGenerations` field. -/
structure ModelConfiguration where
  modelId : String
  imageGenerations : Bool
deriving DecidableEq, Repr

/-- Body of `POST /chats` as serialized by `chats.create` (`src/index.ts` 49-59).
`none` fields are dropped by `JSON.stringify`. -/
structure ChatsCreateParams where
  message : String
  attachments : Option (List String)
  system : Option String
  chatPrivacy : Option String
  projectId : Option String
  modelConfiguration : Option ModelConfiguration
deriving DecidableEq, Repr

/-- Parameters of `chats.find` (`src/index.ts` 76-89): three optional string query fields. -/
structure ChatsFindParams where
  limit : Option String
  offset : Option String
  isFavorite : Option String
deriving DecidableEq, Repr

/-- Query string assembled by `chats.find` (`src/index.ts` 81-89): the entries
`limit`, `offset`, `isFavorite` in that order, with `undefined` values filtered out. -/
def chatsFindQuery (p : Option ChatsFindParams) : List (String × String) :=
  match p with
  | none => []
  | some q =>
      (match q.limit with
       | some v => [("limit", v)]
       | none => []) ++
      (match q.offset with
       | some v => [("offset", v)]
       | none => []) ++
      (match q.isFavorite with
       | some v => [("isFavorite", v)]
       | none => [])

/-- One upstream call issued through the v0 client of `src/index.ts` (47-143):
one constructor per resource-action pair, carrying exactly the data the client
puts on the wire for that call. -/
inductive V0Request where
  | chatsCreate (body : ChatsCreateParams)
  | chatsGetById (chatId : String)
  | chatsCreateMessage (chatId : String) (message : String)
      (attachments : Option (List String)) (modelConfiguration : Option ModelConfiguration)
  | chatsFind (query : List (String × String))
  | chatsDelete (chatId : String)
  | projectsCreate (name : String) (description : Option String) (icon : Option String)
      (environmentVariables : Option (List String)) (instructions : Option String)
  | projectsFind
  | userGet
  | userGetPlan
  | rateLimitsFind (query : List (String × String))
deriving DecidableEq, Repr

/-- The `modelConfiguration` field of an outbound `chats.create` body, and `none`
for every other request (which has no such field). -/
def requestModelConfiguration : V0Request → Option ModelConfiguration
  | .chatsCreate body => body.modelConfiguration
  | _ => none

/-- Outcome of one upstream call as seen by a handler: either a parsed response
or a thrown JS error carrying a message. -/
inductive Outcome (α : Type) where
  | ok (r : α)
  | thrown (msg : String)
deriving DecidableEq, Repr

/-- `fetcher` of `src/index.ts` (9-45): if the api key is falsy (absent or the empty
string, both modelled as `""`) it throws `V0_API_KEY is required` before issuing any
network request; otherwise it performs exactly one request, whose outcome is given by
the network oracle `net`.  The second component is the list of network requests issued. -/
def fetcher {α : Type} (apiKey : String) (req : V0Request)
    (net : V0Request → Outcome α) : Outcome α × List V0Request :=
  if apiKey = "" then (Outcome.thrown "V0_API_KEY is required", [])
  else (net req, [req])

/-! ## Validated tool arguments (the zod schemas of `src/index.ts`) -/

/-- Arguments of `create_chat` (`src/index.ts` 165-183).  The schema declares
`message` required and the rest optional; `modelId` is constrained to
`createChatModelIdValues`. -/
structure CreateChatArgs where
  message : String
  system : Option String
  chatPrivacy : Option String
  modelId : Option String
  imageGenerations : Option Bool
deriving DecidableEq, Repr

/-- The `z.enum` values declared for `create_chat`'s `modelId` (`src/index.ts` 176). -/
def createChatModelIdValues : List String :=
  ["v0-1.5-sm", "v0-1.5-md", "v0-1.5-lg"]

/-- Arguments of `get_chat` / `delete_chat`: a required `chatId`. -/
structure ChatIdArgs where
  chatId : String
deriving DecidableEq, Repr

/-- Arguments of `add_message`: required `chatId` and `message`. -/
structure AddMessageArgs where
  chatId : String
  message : String
deriving DecidableEq, Repr

/-- Arguments of `find_chats` and `find_projects`: optional numeric `limit` and
`offset` (defaulted to 10 and 0 by the handlers' destructuring). -/
structure FindArgs where
  limit : Option Nat
  offset : Option Nat
deriving DecidableEq, Repr

/-- Arguments of `create_project`: required `name`, optional `description`. -/
structure CreateProjectArgs where
  name : String
  description : Option String
deriving DecidableEq, Repr

/-! ## Upstream response shapes (as the handlers read them) -/

/-- `create_chat` upstream response fields used by the handler (`src/index.ts` 196). -/
structure CreateChatResp where
  url : String
  id : String
deriving DecidableEq, Repr

/-- `get_chat` upstream response fields used by the handler (`src/index.ts` 230-233). -/
structure GetChatResp where
  id : String
  url : String
deriving DecidableEq, Repr

/-- One element of the `data` array of a `chats.find` response (`src/index.ts` 318). -/
structure ChatItem where
  id : String
deriving DecidableEq, Repr

/-- `find_chats` upstream response: an optional `data` array (`none` models a
response whose `data` field is absent). -/
structure FindChatsResp where
  data : Option (List ChatItem)
deriving DecidableEq, Repr

/-- One element of the `data` array of a `projects.find` response (`src/index.ts` 409). -/
structure ProjectItem where
  id : String
  name : String
deriving DecidableEq, Repr

/-- `find_projects` upstream response: an optional `data` array. -/
structure FindProjectsResp where
  data : Option (List ProjectItem)
deriving DecidableEq, Repr

/-- `create_project` upstream response fields used by the handler (`src/index.ts` 367). -/
structure CreateProjectResp where
  id : String
  name : String
deriving DecidableEq, Repr

/-- `get_user_info` upstream response fields used by the handler (`src/index.ts` 453-457). -/
structure UserResp where
  id : String
  email : String
  name : Option String
deriving DecidableEq, Repr

/-- `get_user_plan` upstream response: the `plan` field read by the handler, plus the
JSON pretty-printing of the whole response (`JSON.stringify(plan, null, 2)`), modelled
abstractly as the string `rendered`. -/
structure PlanResp where
  plan : String
  rendered : String
deriving DecidableEq, Repr

/-! ## The ten legacy tools and their handlers (`src/index.ts` 162-578) -/

/-- The ten tools registered by the legacy `init` (`src/index.ts` 158-579). -/
inductive Tool where
  | create_chat
  | get_chat
  | add_message
  | find_chats
  | create_project
  | find_projects
  | get_user_info
  | get_user_plan
  | check_rate_limits
  | delete_chat
deriving DecidableEq, Repr, Fintype

/-- The fixed phrase opening each tool's error text (the catch blocks of
`src/index.ts`), including the `": "` separator of the template literal. -/
def errorLabel : Tool → String
  | .create_chat => "Error creating chat: "
  | .get_chat => "Error retrieving chat: "
  | .add_message => "Error adding message: "
  | .find_chats => "Error finding chats: "
  | .create_project => "Error creating project: "
  | .find_projects => "Error finding projects: "
  | .get_user_info => "Error getting user info: "
  | .get_user_plan => "Error getting user plan: "
  | .check_rate_limits => "Error checking rate limits: "
  | .delete_chat => "Error deleting chat: "

/-- JS truthiness of the string `modelId`: `create_chat` sends a nested
`modelConfiguration` object only when `modelId` is truthy (`src/index.ts` 190-195),
with `imageGenerations` defaulted to `false` by `?? false`. -/
def createChatModelConfiguration (args : CreateChatArgs) : Option ModelConfiguration :=
  match args.modelId with
  | some m => if m != "" then some ⟨m, args.imageGenerations.getD false⟩ else none
  | none => none

/-- The upstream call issued by the `create_chat` handler (`src/index.ts` 186-196):
`chats.create` with the handler's arguments; `projectId` and `attachments` are not
supplied by this tool and are therefore absent from the serialized body. -/
def createChatRequest (args : CreateChatArgs) : V0Request :=
  V0Request.chatsCreate
    { message := args.message
      attachments := none
      system := args.system
      chatPrivacy := args.chatPrivacy
      projectId := none
      modelConfiguration := createChatModelConfiguration args }

/-- The upstream call issued by the `find_chats` handler (`src/index.ts` 315-318):
`chats.find` with `limit` and `offset` stringified, after the destructuring defaults
`limit = 10`, `offset = 0`. -/
def findChatsRequest (args : FindArgs) : V0Request :=
  V0Request.chatsFind (chatsFindQuery (some
    { limit := some (toString (args.limit.getD 10))
      offset := some (toString (args.offset.getD 0))
      isFavorite := none }))

/-- The upstream call issued by the `add_message` handler (`src/index.ts` 267-270):
`chats.createMessage` with only `chatId` and `message`. -/
def addMessageRequest (args : AddMessageArgs) : V0Request :=
  V0Request.chatsCreateMessage args.chatId args.message none none

/-- The upstream call issued by the `create_project` handler (`src/index.ts` 364-367). -/
def createProjectRequest (args : CreateProjectArgs) : V0Request :=
  V0Request.projectsCreate args.name args.description none none none

/-! ### Success-path rendering (the template literals of each handler) -/

/-- `create_chat` success text (`src/index.ts` 202). -/
def createChatText (r : CreateChatResp) : String :=
  "Chat created successfully!\n\nChat URL: " ++ r.url ++ "\nChat ID: " ++ r.id

/-- `get_chat` success text (`src/index.ts` 238). -/
def getChatText (r : GetChatResp) : String :=
  "Chat Details:\n\nID: " ++ r.id ++ "\nURL: " ++ r.url

/-- `add_message` success text (`src/index.ts` 276-280); the `JSON.stringify` of the
upstream response is modelled abstractly as the response string itself. -/
def addMessageText (rendered : String) : String :=
  "Message added successfully!\n\nResponse: " ++ rendered

/-- One rendered line of the `find_chats` listing (`src/index.ts` 322). -/
def chatLine (c : ChatItem) : String :=
  "- " ++ c.id

/-- The item lines rendered by `find_chats`: the `data` array sliced to the first
`limit` elements, one line per element (`src/index.ts` 319-323). -/
def findChatsItemLines (resp : FindChatsResp) (limit : Nat) : List String :=
  match resp.data with
  | some d => (d.take limit).map chatLine
  | none => []

/-- The `chatList` string of the `find_chats` handler (`src/index.ts` 319-324):
the joined item lines when `data` is present, else `No chats found`. -/
def findChatsListStr (resp : FindChatsResp) (limit : Nat) : String :=
  match resp.data with
  | some d => String.intercalate "\n" ((d.take limit).map chatLine)
  | none => "No chats found"

/-- The count reported by `find_chats` (`src/index.ts` 330-332):
`chats.data ? chats.data.length : 0`. -/
def findChatsCount (resp : FindChatsResp) : Nat :=
  match resp.data with
  | some d => d.length
  | none => 0

/-- `find_chats` success text (`src/index.ts` 330-332). -/
def findChatsText (resp : FindChatsResp) (limit : Nat) : String :=
  "Found " ++ toString (findChatsCount resp) ++ " chats:\n\n" ++ findChatsListStr resp limit

/-- `create_project` success text (`src/index.ts` 373). -/
def createProjectText (r : CreateProjectResp) : String :=
  "Project created successfully!\n\nID: " ++ r.id ++ "\nName: " ++ r.name

/-- One rendered line of the `find_projects` listing (`src/index.ts` 414-417). -/
def projectLine (p : ProjectItem) : String :=
  "- " ++ p.id ++ ": " ++ p.name

/-- The item lines rendered by `find_projects`: the `data` array sliced with
`slice(offset, offset + limit)`, one line per element (`src/index.ts` 411-418). -/
def findProjectsItemLines (resp : FindProjectsResp) (limit offset : Nat) : List String :=
  match resp.data with
  | some d => ((d.drop offset).take limit).map projectLine
  | none => []

/-- The `projectList` string of the `find_projects` handler (`src/index.ts` 411-419). -/
def findProjectsListStr (resp : FindProjectsResp) (limit offset : Nat) : String :=
  match resp.data with
  | some d => String.intercalate "\n" (((d.drop offset).take limit).map projectLine)
  | none => "No projects found"

/-- The count reported by `find_projects` (`src/index.ts` 425-427). -/
def findProjectsCount (resp : FindProjectsResp) : Nat :=
  match resp.data with
  | some d => d.length
  | none => 0

/-- `find_projects` success text (`src/index.ts` 425-427). -/
def findProjectsText (resp : FindProjectsResp) (limit offset : Nat) : String :=
  "Found " ++ toString (findProjectsCount resp) ++ " projects:\n\n"
    ++ findProjectsListStr resp limit offset

/-- `user.name || "Not provided"` (`src/index.ts` 464): JS `||` treats both an absent
name and the empty string as falsy. -/
def userNameDisplay (name : Option String) : String :=
  match name with
  | some s => if s != "" then s else "Not provided"
  | none => "Not provided"

/-- `get_user_info` success text (`src/index.ts` 462-464). -/
def userInfoText (r : UserResp) : String :=
  "User Information:\n\nID: " ++ r.id ++ "\nEmail: " ++ r.email
    ++ "\nName: " ++ userNameDisplay r.name

/-- `get_user_plan` success text (`src/index.ts` 495-497). -/
def userPlanText (r : PlanResp) : String :=
  "User Plan:\n\nPlan: " ++ r.plan ++ "\nDetails: " ++ r.rendered

/-- `check_rate_limits` success text (`src/index.ts` 528); the `JSON.stringify` of
the upstream response is modelled abstractly as the response string itself. -/
def rateLimitsText (rendered : String) : String :=
  "Rate Limits:\n\n" ++ rendered

/-- `delete_chat` success text (`src/index.ts` 561). -/
def deleteChatText (chatId : String) : String :=
  "Chat " ++ chatId ++ " deleted successfully!"

/-! ### The per-call dispatch: try block, catch block, and totality -/

/-- One tool invocation: the tool's validated arguments together with the outcome of
the single upstream call its handler awaits. -/
inductive ToolInvocation where
  | create_chat (args : CreateChatArgs) (o : Outcome CreateChatResp)
  | get_chat (args : ChatIdArgs) (o : Outcome GetChatResp)
  | add_message (args : AddMessageArgs) (o : Outcome String)
  | find_chats (args : FindArgs) (o : Outcome FindChatsResp)
  | create_project (args : CreateProjectArgs) (o : Outcome CreateProjectResp)
  | find_projects (args : FindArgs) (o : Outcome FindProjectsResp)
  | get_user_info (o : Outcome UserResp)
  | get_user_plan (o : Outcome PlanResp)
  | check_rate_limits (o : Outcome String)
  | delete_chat (args : ChatIdArgs) (o : Outcome Unit)

/-- Which tool an invocation belongs to. -/
def invocationTool : ToolInvocation → Tool
  | .create_chat _ _ => .create_chat
  | .get_chat _ _ => .get_chat
  | .add_message _ _ => .add_message
  | .find_chats _ _ => .find_chats
  | .create_project _ _ => .create_project
  | .find_projects _ _ => .find_projects
  | .get_user_info _ => .get_user_info
  | .get_user_plan _ => .get_user_plan
  | .check_rate_limits _ => .check_rate_limits
  | .delete_chat _ _ => .delete_chat

/-- The thrown error message of an invocation whose upstream call failed, if any. -/
def invocationError : ToolInvocation → Option String
  | .create_chat _ (.thrown m) => some m
  | .get_chat _ (.thrown m) => some m
  | .add_message _ (.thrown m) => some m
  | .find_chats _ (.thrown m) => some m
  | .create_project _ (.thrown m) => some m
  | .find_projects _ (.thrown m) => some m
  | .get_user_info (.thrown m) => some m
  | .get_user_plan (.thrown m) => some m
  | .check_rate_limits (.thrown m) => some m
  | .delete_chat _ (.thrown m) => some m
  | _ => none

/-- A thrown upstream outcome re-raised into the exception monad (the body of the
`try` block before the `catch` intervenes). -/
def liftOutcome {α : Type} : Outcome α → Except String α
  | .ok r => Except.ok r
  | .thrown m => Except.error m

/-- The `try` block of each handler in the exception monad: await the upstream call,
then build the success envelope.  A thrown upstream error is still an exception here. -/
def successBranch : ToolInvocation → Except String Envelope
  | .create_chat _ o => Except.map (fun r => textEnvelope (createChatText r)) (liftOutcome o)
  | .get_chat _ o => Except.map (fun r => textEnvelope (getChatText r)) (liftOutcome o)
  | .add_message _ o => Except.map (fun r => textEnvelope (addMessageText r)) (liftOutcome o)
  | .find_chats args o =>
      Except.map (fun r => textEnvelope (findChatsText r (args.limit.getD 10))) (liftOutcome o)
  | .create_project _ o =>
      Except.map (fun r => textEnvelope (createProjectText r)) (liftOutcome o)
  | .find_projects args o =>
      Except.map
        (fun r => textEnvelope (findProjectsText r (args.limit.getD 10) (args.offset.getD 0)))
        (liftOutcome o)
  | .get_user_info o => Except.map (fun r => textEnvelope (userInfoText r)) (liftOutcome o)
  | .get_user_plan o => Except.map (fun r => textEnvelope (userPlanText r)) (liftOutcome o)
  | .check_rate_limits o => Except.map (fun r => textEnvelope (rateLimitsText r)) (liftOutcome o)
  | .delete_chat args o =>
      Except.map (fun _ => textEnvelope (deleteChatText args.chatId)) (liftOutcome o)

/-- The complete handler, `try` plus `catch`: a caught failure becomes a text envelope
opened by the tool's error label. -/
def handle (inv : ToolInvocation) : Envelope :=
  match successBranch inv with
  | Except.ok e => e
  | Except.error m => textEnvelope (errorLabel (invocationTool inv) ++ m)

/-- The handler as the transport layer sees it: the `try` block guarded by the
`catch` clause in the exception monad.  Producing `Except.error` here would mean an
exception escaping the handler to the transport layer. -/
def dispatchExc (inv : ToolInvocation) : Except String Envelope :=
  Except.tryCatch (successBranch inv)
    (fun m => Except.ok (textEnvelope (errorLabel (invocationTool inv) ++ m)))

/-! ### Dispatch through the v0 client (handler + `fetcher`), with the network log -/

/-- A handler run against the real client: the upstream call goes through `fetcher`
with the agent's api key, a success renders `render`, a thrown error (from the key
guard or from the network) is caught into the tool's error envelope.  The second
component is the list of network requests actually issued. -/
def toolDispatch {α : Type} (t : Tool) (apiKey : String) (req : V0Request)
    (net : V0Request → Outcome α) (render : α → String) : Envelope × List V0Request :=
  match fetcher apiKey req net with
  | (Outcome.ok r, log) => (textEnvelope (render r), log)
  | (Outcome.thrown m, log) => (textEnvelope (errorLabel t ++ m), log)

/-- `create_chat` dispatched through the client. -/
def createChatDispatch (apiKey : String) (args : CreateChatArgs)
    (net : V0Request → Outcome CreateChatResp) : Envelope × List V0Request :=
  toolDispatch Tool.create_chat apiKey (createChatRequest args) net createChatText

/-- `find_chats` dispatched through the client (`src/index.ts` 313-348). -/
def findChatsDispatch (apiKey : String) (args : FindArgs)
    (net : V0Request → Outcome FindChatsResp) : Envelope × List V0Request :=
  toolDispatch Tool.find_chats apiKey (findChatsRequest args) net
    (fun resp => findChatsText resp (args.limit.getD 10))

/-- `find_projects` dispatched through the client (`src/index.ts` 406-443):
the upstream call `projects.find()` carries no parameters; `limit` and `offset`
only enter the local rendering. -/
def findProjectsDispatch (apiKey : String) (args : FindArgs)
    (net : V0Request → Outcome FindProjectsResp) : Envelope × List V0Request :=
  toolDispatch Tool.find_projects apiKey V0Request.projectsFind net
    (fun resp => findProjectsText resp (args.limit.getD 10) (args.offset.getD 0))

/-- `get_user_info` dispatched through the client (`src/index.ts` 447-481). -/
def getUserInfoDispatch (apiKey : String)
    (net : V0Request → Outcome UserResp) : Envelope × List V0Request :=
  toolDispatch Tool.get_user_info apiKey V0Request.userGet net userInfoText

/-- `delete_chat` dispatched through the client (`src/index.ts` 548-578). -/
def deleteChatDispatch (apiKey : String) (args : ChatIdArgs)
    (net : V0Request → Outcome Unit) : Envelope × List V0Request :=
  toolDispatch Tool.delete_chat apiKey (V0Request.chatsDelete args.chatId) net
    (fun _ => deleteChatText args.chatId)

/-! ### The argument validator (modelled from the spec) -/

/-- Modelled from the spec: the argument validator/decoder (spec 4.2) for a required
string field; the decoding itself is implemented by the zod schemas registered in
`src/index.ts` together with the MCP SDK, which are library code outside this
repository.  If the field is `required` and absent from the raw arguments, decoding
fails listing the missing field. -/
def decodeRequiredString (raw : List (String × String)) (field : String) :
    Except (List String) String :=
  match raw.lookup field with
  | some v => Except.ok v
  | none => Except.error [field]

/-- Modelled from the spec: the validation-failure text (spec 4.2 and 4.4),
enumerating every offending field. -/
def validationMessage (fields : List String) : String :=
  "Invalid arguments: missing required " ++ String.intercalate ", " fields

/-- `get_chat` dispatched from raw arguments: the validation stage (modelled from the
spec, 4.5: a `ValidationFailure` short-circuits to the formatter without invoking the
upstream capability interface) followed by the handler of `src/index.ts` 222-255. -/
def getChatDispatchRaw (apiKey : String) (raw : List (String × String))
    (net : V0Request → Outcome GetChatResp) : Envelope × List V0Request :=
  match decodeRequiredString raw "chatId" with
  | Except.error fields =>
      (textEnvelope (errorLabel Tool.get_chat ++ validationMessage fields), [])
  | Except.ok chatId =>
      toolDispatch Tool.get_chat apiKey (V0Request.chatsGetById chatId) net getChatText

/-- The required parameter fields of each legacy tool's zod schema
(`src/index.ts`: `create_chat` 165-183, `get_chat` 225-227, `add_message` 261-264,
`find_chats` 303-312, `create_project` 355-361, `find_projects` 396-405,
`get_user_info` 450, `get_user_plan` 487, `check_rate_limits` 520,
`delete_chat` 551-553): exactly the declared fields without `.optional()`. -/
def requiredFields : Tool → List String
  | .create_chat => ["message"]
  | .get_chat => ["chatId"]
  | .add_message => ["chatId", "message"]
  | .find_chats => []
  | .create_project => ["name"]
  | .find_projects => []
  | .get_user_info => []
  | .get_user_plan => []
  | .check_rate_limits => []
  | .delete_chat => ["chatId"]

/-- Modelled from the spec: the validator's single pass over the schema (spec 4.2),
collecting every required field absent from the raw arguments, in schema order; the
pass inspects only which keys are present, so the raw argument values may be of any
type `V`.  The validator itself is implemented by the zod schemas plus the MCP SDK,
library code outside this repository. -/
def missingFields {V : Type} (raw : List (String × V)) (fields : List String) :
    List String :=
  fields.filter (fun f => (raw.lookup f).isNone)

/-- Modelled from the spec: the dispatch state machine of spec 4.5 around one tool
call — validation of the raw arguments against the tool's required fields first; a
`ValidationFailure` short-circuits to the formatter (spec 4.4: the tool's error label
followed by the failure message listing every missing field) without invoking the
upstream capability interface, so the network log is empty; only when validation
passes does the tool's handler (`run`, its envelope and its network log) take over. -/
def dispatchRaw {V : Type} (t : Tool) (raw : List (String × V))
    (run : Envelope × List V0Request) : Envelope × List V0Request :=
  match missingFields raw (requiredFields t) with
  | [] => run
  | fields => (textEnvelope (errorLabel t ++ validationMessage fields), [])

/-! ### Agent state and the worker fetch handlers -/

/-- The agent's per-instance state, `type State = \x7b\x7d` in `src/index.ts` 146:
the dispatch layer keeps no mutable state. -/
def AgentState : Type := Unit

/-- `get_user_info` dispatch threaded through the (empty) agent state: the handler
reads no state and writes none back. -/
def getUserInfoDispatchSt (apiKey : String) (net : V0Request → Outcome UserResp)
    (s : AgentState) : (Envelope × List V0Request) × AgentState :=
  (getUserInfoDispatch apiKey net, s)

/-- The worker environment: the configured `V0_API_KEY` binding (`""` models an
absent or empty configuration). -/
structure WorkerEnv where
  V0_API_KEY : String
deriving DecidableEq, Repr

/-- An inbound transport request as the legacy worker fetch sees it: the URL path and
whatever credential material the caller attached (header or query; the legacy fetch
reads none of it). -/
structure InboundRequest where
  pathname : String
  credential : Option String
deriving DecidableEq, Repr

/-- What a worker fetch does with a request: return an HTTP response directly, or
hand the request to the MCP agent (SSE or streamable-HTTP endpoint) with the api key
placed in `ctx.props`. -/
inductive FetchOutcome where
  | response (status : Nat) (body : String)
  | serveSSE (apiKey : String)
  | serveMCP (apiKey : String)
deriving DecidableEq, Repr

/-- The legacy default fetch (`src/index.ts` 582-607): the credential check is
commented out; the api key is unconditionally `env.V0_API_KEY` and every `/sse`,
`/sse/message` or `/mcp` request is dispatched. -/
def legacyDefaultFetch (request : InboundRequest) (env : WorkerEnv) : FetchOutcome :=
  let apiKey := env.V0_API_KEY
  if request.pathname = "/sse" ∨ request.pathname = "/sse/message" then
    FetchOutcome.serveSSE apiKey
  else if request.pathname = "/mcp" then FetchOutcome.serveMCP apiKey
  else FetchOutcome.response 404 "Not found"

/-- An inbound request as the main-variant fetch sees it: the URL path and
`url.searchParams.get("key")` (`none` when the parameter is absent). -/
structure V2Request where
  pathname : String
  keyParam : Option String
deriving DecidableEq, Repr

/-- The main-variant default fetch (embedded in `README.md` 2068-2097): a falsy
`key` query parameter (absent, or the empty string) is rejected with a 401 response
before any routing to the MCP agent. -/
def v2DefaultFetch (request : V2Request) : FetchOutcome :=
  match request.keyParam with
  | none => FetchOutcome.response 401 "Missing key query parameter"
  | some apiKey =>
      if apiKey = "" then FetchOutcome.response 401 "Missing key query parameter"
      else if request.pathname = "/sse" ∨ request.pathname = "/sse/message" then
        FetchOutcome.serveSSE apiKey
      else if request.pathname = "/mcp" then FetchOutcome.serveMCP apiKey
      else FetchOutcome.response 404 "Not found"

/-! ### The main-variant tool surface: error labels of the 39 v0-sdk tools -/

/-- The 39 tools registered by the main-variant `init` (embedded in `README.md`
314-2065). -/
inductive V2Tool where
  | create_chat
  | find_chats
  | initialize_chat
  | get_chat
  | update_chat
  | favorite_chat
  | fork_chat
  | send_message
  | find_chat_messages
  | get_chat_message
  | find_chat_versions
  | get_chat_version
  | update_chat_version_files
  | resume_message
  | delete_chat
  | create_project
  | find_projects
  | get_project_by_id
  | get_project_by_chat_id
  | update_project
  | assign_project_to_chat
  | find_deployments
  | create_deployment
  | get_deployment
  | delete_deployment
  | find_deployment_logs
  | find_deployment_errors
  | create_vercel_project
  | find_vercel_projects
  | find_hooks
  | create_hook
  | get_hook
  | update_hook
  | delete_hook
  | get_user_info
  | get_user_billing
  | get_user_plan
  | get_user_scopes
  | check_rate_limits
deriving DecidableEq, Repr, Fintype

/-- The fixed phrase opening each main-variant tool's error text (the catch blocks of
the source embedded in `README.md`). -/
def v2ErrorLabel : V2Tool → String
  | .create_chat => "Error creating chat: "
  | .find_chats => "Error finding chats: "
  | .initialize_chat => "Error initializing chat: "
  | .get_chat => "Error retrieving chat: "
  | .update_chat => "Error updating chat: "
  | .favorite_chat => "Error updating favorite status: "
  | .fork_chat => "Error forking chat: "
  | .send_message => "Error sending message: "
  | .find_chat_messages => "Error finding messages: "
  | .get_chat_message => "Error getting message: "
  | .find_chat_versions => "Error finding versions: "
  | .get_chat_version => "Error getting version: "
  | .update_chat_version_files => "Error updating version files: "
  | .resume_message => "Error resuming message: "
  | .delete_chat => "Error deleting chat: "
  | .create_project => "Error creating project: "
  | .find_projects => "Error finding projects: "
  | .get_project_by_id => "Error getting project: "
  | .get_project_by_chat_id => "Error getting project by chat ID: "
  | .update_project => "Error updating project: "
  | .assign_project_to_chat => "Error assigning project to chat: "
  | .find_deployments => "Error finding deployments: "
  | .create_deployment => "Error creating deployment: "
  | .get_deployment => "Error getting deployment: "
  | .delete_deployment => "Error deleting deployment: "
  | .find_deployment_logs => "Error finding deployment logs: "
  | .find_deployment_errors => "Error finding deployment errors: "
  | .create_vercel_project => "Error creating Vercel project: "
  | .find_vercel_projects => "Error finding Vercel projects: "
  | .find_hooks => "Error finding hooks: "
  | .create_hook => "Error creating hook: "
  | .get_hook => "Error getting hook: "
  | .update_hook => "Error updating hook: "
  | .delete_hook => "Error deleting hook: "
  | .get_user_info => "Error getting user info: "
  | .get_user_billing => "Error getting billing info: "
  | .get_user_plan => "Error getting user plan: "
  | .get_user_scopes => "Error getting user scopes: "
  | .check_rate_limits => "Error checking rate limits: "

/-! ## Claims -/

/-- Claim C1: for every registered tool and every outcome of its handler (upstream
success or thrown error), dispatch returns normally with a result envelope: the
guarded handler never produces an exception for the transport layer, and every caught
failure is converted into the text envelope `handle` builds. -/
theorem dispatch_never_throws :
    ∀ inv : ToolInvocation, dispatchExc inv = Except.ok (handle inv) := by
  intro inv
  cases inv <;> (rename_i o; cases o <;> rfl)

/-- Claim C2: a `create_chat` call with a supplied (schema-valid) `modelId` sends a
nested `modelConfiguration` object holding exactly that `modelId` and
`imageGenerations` (defaulted to `false` when omitted); with `modelId` absent, no
`modelConfiguration` object is sent at all, whatever `imageGenerations` was; and the
outbound `chats.create` body carries exactly this configuration. -/
theorem create_chat_model_configuration :
    ∀ args : CreateChatArgs,
      (∀ m, m ∈ createChatModelIdValues → args.modelId = some m →
        createChatModelConfiguration args = some ⟨m, args.imageGenerations.getD false⟩)
      ∧ (args.modelId = none → createChatModelConfiguration args = none)
      ∧ requestModelConfiguration (createChatRequest args)
          = createChatModelConfiguration args := by
  intro args
  refine ⟨?_, ?_, rfl⟩
  · intro m hmem heq
    have hb : (m != "") = true := by
      simp only [createChatModelIdValues, List.mem_cons, List.not_mem_nil, or_false] at hmem
      rcases hmem with rfl | rfl | rfl <;> decide
    simp [createChatModelConfiguration, heq, hb]
  · intro h
    simp [createChatModelConfiguration, h]

/-- Witness for C2: `modelId = "v0-1.5-md"`, `imageGenerations = true` yields exactly
that nested configuration object. -/
theorem create_chat_model_configuration_witness :
    createChatModelConfiguration ⟨"hi", none, none, some "v0-1.5-md", some true⟩
      = some ⟨"v0-1.5-md", true⟩ :=
  (create_chat_model_configuration ⟨"hi", none, none, some "v0-1.5-md", some true⟩).1
    "v0-1.5-md" (by decide) rfl

/-- Claim C3: for every tool, every raw argument list, and every behavior the tool's
handler would have had, if any required schema field is absent from the raw
arguments then validation fails — the resulting envelope is the tool's error label
followed by the validation message listing the missing fields, the absent field
among them — and the upstream capability interface is never invoked for that call:
the network log is empty. -/
theorem missing_required_field_no_upstream :
    ∀ (V : Type) (t : Tool) (raw : List (String × V)) (run : Envelope × List V0Request)
      (f : String), f ∈ requiredFields t → raw.lookup f = none →
      f ∈ missingFields raw (requiredFields t)
      ∧ dispatchRaw t raw run
          = (textEnvelope
              (errorLabel t ++ validationMessage (missingFields raw (requiredFields t))),
             []) := by
  intro V t raw run f hf hlook
  have hmem : f ∈ missingFields raw (requiredFields t) := by
    simp [missingFields, List.mem_filter, hf, hlook]
  refine ⟨hmem, ?_⟩
  cases hm : missingFields raw (requiredFields t) with
  | nil => simp [hm] at hmem
  | cons a l => simp [dispatchRaw, hm]

/-- Witness for C3: `get_chat` called with an empty raw argument object — `chatId` is
required and absent, so the dispatch yields the validation envelope naming `chatId`
and issues zero upstream calls, even though the handler would have issued one. -/
theorem missing_required_field_no_upstream_witness :
    "chatId" ∈ requiredFields Tool.get_chat
    ∧ (([] : List (String × String)).lookup "chatId" = none)
    ∧ dispatchRaw Tool.get_chat ([] : List (String × String))
        (textEnvelope "unreachable", [V0Request.chatsGetById "c1"])
      = (textEnvelope (errorLabel Tool.get_chat ++ validationMessage ["chatId"]), []) :=
  ⟨by decide, rfl,
   (missing_required_field_no_upstream String Tool.get_chat []
      (textEnvelope "unreachable", [V0Request.chatsGetById "c1"])
      "chatId" (by decide) rfl).2⟩

/-- Counterexample for C4: the legacy default fetch (`src/index.ts` 582-607)
dispatches a `/mcp` request that carries no credential, using the environment's
configured key, instead of rejecting it with a 401 response. -/
theorem legacy_fetch_dispatches_without_credential :
    legacyDefaultFetch ⟨"/mcp", none⟩ ⟨"configured-key"⟩
      = FetchOutcome.serveMCP "configured-key" := by
  decide

/-- Claim C4 as amended: in the main (v0-sdk) variant, every request whose `key`
query parameter is absent or empty is rejected with the transport-level 401 response
`Missing key query parameter` before any routing to the MCP agent; the legacy variant
performs no credential check at the edge — its fetch ignores any credential on the
request entirely. -/
theorem auth_guard_variant_behavior :
    (∀ req : V2Request, req.keyParam = none ∨ req.keyParam = some "" →
        v2DefaultFetch req = FetchOutcome.response 401 "Missing key query parameter")
    ∧ (∀ (req : InboundRequest) (env : WorkerEnv),
        legacyDefaultFetch req env = legacyDefaultFetch ⟨req.pathname, none⟩ env) := by
  constructor
  · intro req h
    rcases h with h | h <;> simp [v2DefaultFetch, h]
  · intro req env
    rfl

/-- Witness for C4 (amended): a credentialless `/mcp` request is rejected with the
401 response by the main-variant fetch. -/
theorem auth_guard_variant_behavior_witness :
    v2DefaultFetch ⟨"/mcp", none⟩ = FetchOutcome.response 401 "Missing key query parameter" :=
  auth_guard_variant_behavior.1 ⟨"/mcp", none⟩ (Or.inl rfl)

/-- Counterexample for C5: `find_projects` with `limit = 1`, `offset = 1` issues an
upstream call carrying no pagination parameters at all, and changing `offset` changes
the rendered envelope but not the upstream call — pagination is applied by
post-filtering inside the handler, not passed through. -/
theorem find_projects_pagination_not_passed_upstream :
    (findProjectsDispatch "key" ⟨some 1, some 1⟩
        (fun _ => Outcome.ok ⟨some [⟨"p1", "A"⟩, ⟨"p2", "B"⟩, ⟨"p3", "C"⟩]⟩)).2
      = [V0Request.projectsFind]
    ∧ (findProjectsDispatch "key" ⟨some 1, some 2⟩
        (fun _ => Outcome.ok ⟨some [⟨"p1", "A"⟩, ⟨"p2", "B"⟩, ⟨"p3", "C"⟩]⟩)).2
      = [V0Request.projectsFind]
    ∧ (findProjectsDispatch "key" ⟨some 1, some 1⟩
        (fun _ => Outcome.ok ⟨some [⟨"p1", "A"⟩, ⟨"p2", "B"⟩, ⟨"p3", "C"⟩]⟩)).1
      ≠ (findProjectsDispatch "key" ⟨some 1, some 2⟩
        (fun _ => Outcome.ok ⟨some [⟨"p1", "A"⟩, ⟨"p2", "B"⟩, ⟨"p3", "C"⟩]⟩)).1 := by
  refine ⟨rfl, rfl, ?_⟩
  decide

/-- Claim C5 as amended: each paginated find tool issues exactly one upstream call
per dispatch (given a truthy api key).  `find_chats` passes `limit` and `offset`
through to that upstream call; `find_projects` passes no pagination parameters
upstream, applying `limit` and `offset` by slicing the response locally. -/
theorem find_tools_single_upstream_call :
    ∀ (apiKey : String) (argsC argsP : FindArgs)
      (netC : V0Request → Outcome FindChatsResp)
      (netP : V0Request → Outcome FindProjectsResp),
      apiKey ≠ "" →
      (findChatsDispatch apiKey argsC netC).2
          = [V0Request.chatsFind
              [("limit", toString (argsC.limit.getD 10)),
               ("offset", toString (argsC.offset.getD 0))]]
      ∧ (findProjectsDispatch apiKey argsP netP).2 = [V0Request.projectsFind] := by
  intro apiKey argsC argsP netC netP h
  constructor
  · unfold findChatsDispatch toolDispatch fetcher
    rw [if_neg h]
    cases netC (findChatsRequest argsC) <;> rfl
  · unfold findProjectsDispatch toolDispatch fetcher
    rw [if_neg h]
    cases netP V0Request.projectsFind <;> rfl

/-- Witness for C5 (amended): a concrete dispatch of each find tool issues exactly
its single upstream call, with `find_chats` carrying the stringified pagination. -/
theorem find_tools_single_upstream_call_witness :
    (findChatsDispatch "k" ⟨some 2, some 3⟩ (fun _ => Outcome.ok ⟨some []⟩)).2
        = [V0Request.chatsFind [("limit", toString (2 : Nat)), ("offset", toString (3 : Nat))]]
    ∧ (findProjectsDispatch "k" ⟨some 2, some 3⟩ (fun _ => Outcome.ok ⟨some []⟩)).2
        = [V0Request.projectsFind] :=
  find_tools_single_upstream_call "k" ⟨some 2, some 3⟩ ⟨some 2, some 3⟩
    (fun _ => Outcome.ok ⟨some []⟩) (fun _ => Outcome.ok ⟨some []⟩) (by decide)

/-- Counterexample for C6: on an upstream response with three projects, `find_projects`
with `limit = 10`, `offset = 1` reports the count 3 but renders only two item lines;
the dispatched envelope shows both. -/
theorem find_projects_count_line_mismatch :
    findProjectsCount ⟨some [⟨"p1", "A"⟩, ⟨"p2", "B"⟩, ⟨"p3", "C"⟩]⟩
        ≠ (findProjectsItemLines ⟨some [⟨"p1", "A"⟩, ⟨"p2", "B"⟩, ⟨"p3", "C"⟩]⟩ 10 1).length
    ∧ (findProjectsDispatch "k" ⟨some 10, some 1⟩
        (fun _ => Outcome.ok ⟨some [⟨"p1", "A"⟩, ⟨"p2", "B"⟩, ⟨"p3", "C"⟩]⟩)).1
      = textEnvelope "Found 3 projects:\n\n- p2: B\n- p3: C" := by
  refine ⟨by decide, ?_⟩
  rfl

/-- Claim C6 as amended: a listing success text reports the total number of items in
the upstream response's `data` array and renders one line per item of the locally
sliced window (`find_chats`: the first `limit` items; `find_projects`: `limit` items
starting at `offset`); the reported count equals the number of rendered item lines
whenever the window covers the whole array (for `find_chats`, when the response has
at most `limit` items; for `find_projects`, additionally when `offset = 0`). -/
theorem listing_count_semantics :
    ∀ (c : List ChatItem) (p : List ProjectItem) (limit offset : Nat),
      findChatsCount ⟨some c⟩ = c.length
      ∧ findProjectsCount ⟨some p⟩ = p.length
      ∧ findChatsText ⟨some c⟩ limit
          = "Found " ++ toString c.length ++ " chats:\n\n"
              ++ String.intercalate "\n" (findChatsItemLines ⟨some c⟩ limit)
      ∧ findProjectsText ⟨some p⟩ limit offset
          = "Found " ++ toString p.length ++ " projects:\n\n"
              ++ String.intercalate "\n" (findProjectsItemLines ⟨some p⟩ limit offset)
      ∧ (c.length ≤ limit →
          (findChatsItemLines ⟨some c⟩ limit).length = findChatsCount ⟨some c⟩)
      ∧ (offset = 0 → p.length ≤ limit →
          (findProjectsItemLines ⟨some p⟩ limit offset).length
            = findProjectsCount ⟨some p⟩) := by
  intro c p limit offset
  refine ⟨rfl, rfl, rfl, rfl, ?_, ?_⟩
  · intro h
    simp [findChatsItemLines, findChatsCount, List.take_of_length_le h]
  · intro hoff h
    subst hoff
    simp [findProjectsItemLines, findProjectsCount, List.take_of_length_le h]

/-- Witness for C6 (amended): on one-element responses with `limit = 5`, `offset = 0`
the reported count equals the number of rendered item lines for both find tools. -/
theorem listing_count_semantics_witness :
    (findChatsItemLines ⟨some [⟨"a"⟩]⟩ 5).length = findChatsCount ⟨some [⟨"a"⟩]⟩
    ∧ (findProjectsItemLines ⟨some [⟨"p", "n"⟩]⟩ 5 0).length
        = findProjectsCount ⟨some [⟨"p", "n"⟩]⟩ :=
  ⟨(listing_count_semantics [⟨"a"⟩] [⟨"p", "n"⟩] 5 0).2.2.2.2.1 (by decide),
   (listing_count_semantics [⟨"a"⟩] [⟨"p", "n"⟩] 5 0).2.2.2.2.2 rfl (by decide)⟩

/-- Claim C7: every failure envelope's text is the tool's fixed error label followed
by the underlying failure message — for thrown upstream failures via the catch
blocks and for validation failures via the `get_chat` raw dispatch — and any two
distinct tools have distinct labels, in the legacy registry and in the main-variant
registry alike. -/
theorem error_text_labels :
    (∀ (inv : ToolInvocation) (m : String), invocationError inv = some m →
        handle inv = textEnvelope (errorLabel (invocationTool inv) ++ m))
    ∧ (∀ (apiKey : String) (raw : List (String × String))
          (net : V0Request → Outcome GetChatResp) (fields : List String),
        decodeRequiredString raw "chatId" = Except.error fields →
        (getChatDispatchRaw apiKey raw net).1
          = textEnvelope (errorLabel Tool.get_chat ++ validationMessage fields))
    ∧ (∀ t₁ t₂ : Tool, t₁ ≠ t₂ → errorLabel t₁ ≠ errorLabel t₂)
    ∧ (∀ t₁ t₂ : V2Tool, t₁ ≠ t₂ → v2ErrorLabel t₁ ≠ v2ErrorLabel t₂) := by
  refine ⟨?_, ?_, by decide, by decide⟩
  · intro inv m h
    cases inv <;>
      (rename_i o; cases o <;>
        simp_all [invocationError, handle, successBranch, liftOutcome,
          invocationTool, Except.map])
  · intro apiKey raw net fields h
    simp [getChatDispatchRaw, h]

/-- Witness for C7: a thrown `boom` in `create_chat` produces exactly its labelled
error text, and sample label pairs of either registry differ. -/
theorem error_text_labels_witness :
    handle (ToolInvocation.create_chat ⟨"hi", none, none, none, none⟩ (Outcome.thrown "boom"))
        = textEnvelope "Error creating chat: boom"
    ∧ errorLabel Tool.create_chat ≠ errorLabel Tool.find_chats
    ∧ v2ErrorLabel V2Tool.find_deployments ≠ v2ErrorLabel V2Tool.create_chat :=
  ⟨error_text_labels.1 _ "boom" rfl,
   error_text_labels.2.2.1 _ _ (by decide),
   error_text_labels.2.2.2 _ _ (by decide)⟩

/-- Claim C8: dispatch is deterministic and stateless: running `get_user_info` twice
with the same api key and the same network behavior, threading the (empty) agent
state through, yields two identical result envelopes and leaves the state unchanged. -/
theorem get_user_info_dispatch_stateless :
    ∀ (apiKey : String) (net : V0Request → Outcome UserResp) (s : AgentState),
      (getUserInfoDispatchSt apiKey net s).1.1
          = (getUserInfoDispatchSt apiKey net (getUserInfoDispatchSt apiKey net s).2).1.1
      ∧ (getUserInfoDispatchSt apiKey net (getUserInfoDispatchSt apiKey net s).2).2 = s := by
  intro apiKey net s
  exact ⟨rfl, rfl⟩

/-- Claim C9: every result envelope produced by any tool handler, on success and on
failure alike, contains exactly one content block, of type `text`, with a string
payload. -/
theorem envelope_single_text_block :
    ∀ inv : ToolInvocation, ∃ s : String, (handle inv).content = [⟨"text", s⟩] := by
  intro inv
  cases inv <;> (rename_i o; cases o <;> exact ⟨_, rfl⟩)

/-- Claim C10: in the legacy variant, a falsy configured api key is not rejected at
the request edge (a credentialless `/mcp` request is still dispatched); instead every
tool invocation reaching the client throws `V0_API_KEY is required` inside `fetcher`
before any network request is issued, and the catch block returns it as the tool's
per-call text error envelope. -/
theorem empty_api_key_per_call_failure :
    (∀ cred : Option String,
        legacyDefaultFetch ⟨"/mcp", cred⟩ ⟨""⟩ = FetchOutcome.serveMCP "")
    ∧ (∀ (α : Type) (req : V0Request) (net : V0Request → Outcome α),
        fetcher "" req net = (Outcome.thrown "V0_API_KEY is required", []))
    ∧ (∀ (α : Type) (t : Tool) (req : V0Request) (net : V0Request → Outcome α)
          (render : α → String),
        toolDispatch t "" req net render
          = (textEnvelope (errorLabel t ++ "V0_API_KEY is required"), [])) := by
  refine ⟨fun cred => rfl, fun α req net => rfl, fun α t req net render => rfl⟩

end V0MCP
